import Mathlib

/-!
Verification of the OAuth credential lifecycle manager of this repository
(`src/utils/auth.py`, `src/utils/db.py`, `src/jobs/token_refresh.py`,
`src/mcp/goog/utils.py`) against its natural-language specification.

Conventions of the shallow embedding:

* Byte strings are `List Nat` with every entry `< 256`.  A Python `str` is a
  Lean `String`; where a string is encoded to bytes (`s.encode("utf-8")`) the
  corresponding byte list carries the character codes (a bijection on the
  code points `< 256`, which is the range exercised by all proofs; the
  encode/decode pair of the Python standard library is a bijection on all
  valid strings).
* Timestamps (`datetime` values, UTC everywhere in the code) are `Int`
  epoch seconds; `datetime.timedelta(seconds = n)` is the integer `n`.
* The network is an explicit parameter: an `HttpOutcome` records what the
  `httpx` call to the provider token endpoint did — delivered a response, or
  raised a transport exception (timeout, connection failure).
* A Python function that can raise is embedded with an explicit error
  result; constructor doc comments record which exception the source raises.
* The AES-256-GCM primitive of the `cryptography` library is modelled
  abstractly but structurally: a CTR keystream XORed over the plaintext plus
  an authentication tag, both unspecified deterministic byte-valued
  functions of the key, the IV and the data.  Every proof below relies only
  on determinism, on the byte range `< 256`, on the XOR symmetry of CTR
  mode, and on decryption recomputing and comparing the tag — exactly the
  properties AES-GCM provides.  The concrete formulas are arbitrary
  stand-ins.
-/

/-- Hex digit character used by `binascii.hexlify` (lowercase output). -/
def hexDigit (n : Nat) : Char :=
  if n < 10 then Char.ofNat (48 + n) else Char.ofNat (87 + n)

/-- Hex encoding of one byte: two lowercase hex digits. -/
def hexlifyByte (b : Nat) : List Char :=
  [hexDigit (b / 16), hexDigit (b % 16)]

/-- Embedding of `binascii.hexlify(bs).decode()`: lowercase hex encoding of a
byte string. -/
def hexlify : List Nat → List Char
  | [] => []
  | b :: rest => hexlifyByte b ++ hexlify rest

/-- Value of one hex digit; `binascii.unhexlify` accepts both letter cases. -/
def unhexDigit (c : Char) : Option Nat :=
  if 48 ≤ c.toNat ∧ c.toNat ≤ 57 then some (c.toNat - 48)
  else if 97 ≤ c.toNat ∧ c.toNat ≤ 102 then some (c.toNat - 87)
  else if 65 ≤ c.toNat ∧ c.toNat ≤ 70 then some (c.toNat - 55)
  else none

/-- Embedding of `binascii.unhexlify`: fails (the source raises
`binascii.Error`) on odd length or on a character that is not a hex digit. -/
def unhexBytes : List Char → Option (List Nat)
  | [] => some []
  | c1 :: c2 :: rest => do
    let hi ← unhexDigit c1
    let lo ← unhexDigit c2
    let tail ← unhexBytes rest
    pure ((hi * 16 + lo) :: tail)
  | [_] => none

/-- The 32-byte process key `ENCRYPTION_KEY` of `src/utils/auth.py`.  In the
source it is loaded at startup from the `OAUTH_ENCRYPTION_KEY` configuration
secret (base64, exactly 32 bytes after decoding).  The concrete value is a
stand-in; no proof depends on it. -/
def ENCRYPTION_KEY : List Nat := List.range 32

/-- Byte `i` of the AES-256-CTR keystream for the process key and the given
IV, modelled as an unspecified deterministic byte-valued function (see the
file header). -/
def keystream (iv : List Nat) (i : Nat) : Nat :=
  ((ENCRYPTION_KEY ++ iv).foldl (fun a b => (a * 131 + b + 7) % 256) 1 + 89 * i) % 256

/-- GCM authentication tag (16 bytes) for the process key, the given IV and
the given ciphertext, modelled as an unspecified deterministic function (see
the file header). -/
def authTagBytes (iv ct : List Nat) : List Nat :=
  (List.range 16).map (fun i => keystream (iv ++ 255 :: ct) i)

/-- CTR-mode body of AES-GCM: XOR the data with the keystream starting at
stream index `i`.  Encryption and decryption of the data bytes are this same
operation. -/
def gcmXor (iv : List Nat) : Nat → List Nat → List Nat
  | _, [] => []
  | i, b :: rest => (b ^^^ keystream iv i) :: gcmXor iv (i + 1) rest

deriving instance DecidableEq for Except

/-- Failure modes of `decrypt` in `src/utils/auth.py`. -/
inductive DecryptError
  /-- Python raises `ValueError("Invalid encrypted text format")`: the input
  does not split into exactly three colon-separated segments. -/
  | malformed
  /-- Python raises `binascii.Error` from `unhexlify` on a segment that is
  not valid hex. -/
  | badHex
  /-- Python raises `InvalidTag` from `decryptor.finalize()`: the
  authentication tag does not verify. -/
  | authFailure
deriving DecidableEq, Repr

/-- Embedding of `encrypt` of `src/utils/auth.py`: AES-256-GCM under the
process key, result `iv:authTag:ciphertext`, all segments hex encoded.  The
16-byte IV, drawn by `os.urandom(16)` in the source, is a parameter. -/
def encrypt (iv pt : List Nat) : List Char :=
  hexlify iv ++ ':' ::
    (hexlify (authTagBytes iv (gcmXor iv 0 pt)) ++ ':' :: hexlify (gcmXor iv 0 pt))

/-- Python `encrypted_text.split(":")`: empty segments are kept, the
separator appears in no segment. -/
def splitColon : List Char → List (List Char)
  | [] => [[]]
  | c :: rest =>
    if c = ':' then [] :: splitColon rest
    else
      match splitColon rest with
      | [] => [[c]]
      | p :: ps => (c :: p) :: ps

/-- Embedding of `decrypt` of `src/utils/auth.py`: split on `:`, require
exactly three segments, hex-decode them, then decrypt and verify the tag.
In the source the tag comparison happens inside `decryptor.finalize()` after
the ciphertext bytes have been processed; the function returns plaintext only
when `finalize` succeeds, so checking the tag before the XOR, as done here,
is observationally identical. -/
def decrypt (s : List Char) : Except DecryptError (List Nat) :=
  match splitColon s with
  | [p0, p1, p2] =>
    match unhexBytes p0, unhexBytes p1, unhexBytes p2 with
    | some iv, some tag, some ct =>
      if authTagBytes iv ct = tag then Except.ok (gcmXor iv 0 ct)
      else Except.error DecryptError.authFailure
    | _, _, _ => Except.error DecryptError.badHex
  | _ => Except.error DecryptError.malformed

/-- Embedding of `TokenService.encrypt_token` (which is `encrypt` applied to
the UTF-8 encoding of the token). -/
def encrypt_token (iv : List Nat) (s : String) : String :=
  String.mk (encrypt iv (s.data.map Char.toNat))

/-- Embedding of `TokenService.decrypt_token` (which is `decrypt` followed by
UTF-8 decoding). -/
def decrypt_token (s : String) : Except DecryptError String :=
  (decrypt s.data).map (fun bs => String.mk (bs.map Char.ofNat))

theorem splitColon_no_colon {l : List Char} (h : ':' ∉ l) : splitColon l = [l] := by
  induction l with
  | nil => rfl
  | cons c rest ih =>
    have hc : ¬ c = ':' := fun hc => h (hc ▸ List.mem_cons_self c rest)
    have hrest : ':' ∉ rest := fun hm => h (List.mem_cons_of_mem c hm)
    simp [splitColon, hc, ih hrest]

theorem splitColon_append {l : List Char} (r : List Char) (h : ':' ∉ l) :
    splitColon (l ++ ':' :: r) = l :: splitColon r := by
  induction l with
  | nil => simp [splitColon]
  | cons c rest ih =>
    have hc : ¬ c = ':' := fun hc => h (hc ▸ List.mem_cons_self c rest)
    have hrest : ':' ∉ rest := fun hm => h (List.mem_cons_of_mem c hm)
    simp [splitColon, hc, ih hrest]

theorem hexDigit_ne_colon : ∀ n, n < 16 → hexDigit n ≠ ':' := by decide

theorem unhexDigit_hexDigit : ∀ n, n < 16 → unhexDigit (hexDigit n) = some n := by decide

theorem colon_not_mem_hexlify {bs : List Nat} (h : ∀ b ∈ bs, b < 256) :
    ':' ∉ hexlify bs := by
  induction bs with
  | nil => simp [hexlify]
  | cons b rest ih =>
    have hb : b < 256 := h b (List.mem_cons_self b rest)
    have hdiv : b / 16 < 16 := Nat.div_lt_of_lt_mul (by omega)
    have hmod : b % 16 < 16 := Nat.mod_lt _ (by omega)
    intro hmem
    simp only [hexlify, hexlifyByte, List.cons_append, List.nil_append,
      List.mem_cons] at hmem
    rcases hmem with h1 | h2 | h3
    · exact hexDigit_ne_colon _ hdiv h1.symm
    · exact hexDigit_ne_colon _ hmod h2.symm
    · exact ih (fun x hx => h x (List.mem_cons_of_mem b hx)) h3

theorem unhexBytes_hexlify {bs : List Nat} (h : ∀ b ∈ bs, b < 256) :
    unhexBytes (hexlify bs) = some bs := by
  induction bs with
  | nil => rfl
  | cons b rest ih =>
    have hb : b < 256 := h b (List.mem_cons_self b rest)
    have hdiv : b / 16 < 16 := Nat.div_lt_of_lt_mul (by omega)
    have hmod : b % 16 < 16 := Nat.mod_lt _ (by omega)
    have hrest := ih (fun x hx => h x (List.mem_cons_of_mem b hx))
    have hrec : b / 16 * 16 + b % 16 = b := by omega
    have heq : hexlify (b :: rest) = hexDigit (b / 16) :: hexDigit (b % 16) :: hexlify rest := rfl
    rw [heq]
    simp only [unhexBytes, unhexDigit_hexDigit _ hdiv, unhexDigit_hexDigit _ hmod, hrest]
    simp [hrec]

theorem keystream_lt (iv : List Nat) (i : Nat) : keystream iv i < 256 :=
  Nat.mod_lt _ (by omega)

theorem gcmXor_lt {pt : List Nat} (iv : List Nat) (h : ∀ b ∈ pt, b < 256) :
    ∀ i, ∀ b ∈ gcmXor iv i pt, b < 256 := by
  induction pt with
  | nil => intro i b hb; simp [gcmXor] at hb
  | cons x rest ih =>
    intro i b hb
    simp only [gcmXor, List.mem_cons] at hb
    rcases hb with hb | hb
    · have hx : x < 2 ^ 8 := h x (List.mem_cons_self x rest)
      have hk : keystream iv i < 2 ^ 8 := keystream_lt iv i
      exact hb ▸ Nat.xor_lt_two_pow hx hk
    · exact ih (fun y hy => h y (List.mem_cons_of_mem x hy)) (i + 1) b hb

theorem authTagBytes_lt (iv ct : List Nat) : ∀ b ∈ authTagBytes iv ct, b < 256 := by
  intro b hb
  simp only [authTagBytes, List.mem_map] at hb
  obtain ⟨i, _, rfl⟩ := hb
  exact keystream_lt _ i

theorem gcmXor_gcmXor (iv : List Nat) (pt : List Nat) :
    ∀ i, gcmXor iv i (gcmXor iv i pt) = pt := by
  induction pt with
  | nil => intro i; rfl
  | cons b rest ih =>
    intro i
    simp [gcmXor, ih (i + 1), Nat.xor_cancel_right]

theorem decrypt_encrypt {iv pt : List Nat} (hiv : ∀ b ∈ iv, b < 256)
    (hpt : ∀ b ∈ pt, b < 256) : decrypt (encrypt iv pt) = Except.ok pt := by
  have hct : ∀ b ∈ gcmXor iv 0 pt, b < 256 := gcmXor_lt iv hpt 0
  have htag : ∀ b ∈ authTagBytes iv (gcmXor iv 0 pt), b < 256 := authTagBytes_lt _ _
  have hsplit : splitColon (encrypt iv pt) =
      [hexlify iv, hexlify (authTagBytes iv (gcmXor iv 0 pt)), hexlify (gcmXor iv 0 pt)] := by
    unfold encrypt
    rw [splitColon_append _ (colon_not_mem_hexlify hiv),
      splitColon_append _ (colon_not_mem_hexlify htag),
      splitColon_no_colon (colon_not_mem_hexlify hct)]
  unfold decrypt
  rw [hsplit]
  simp only [unhexBytes_hexlify hiv, unhexBytes_hexlify htag, unhexBytes_hexlify hct]
  simp [gcmXor_gcmXor]

theorem decrypt_token_encrypt_token {iv : List Nat} {s : String}
    (hiv : ∀ b ∈ iv, b < 256) (hs : ∀ c ∈ s.data, c.toNat < 256) :
    decrypt_token (encrypt_token iv s) = Except.ok s := by
  have hbytes : ∀ b ∈ s.data.map Char.toNat, b < 256 := by
    intro b hb
    simp only [List.mem_map] at hb
    obtain ⟨c, hc, rfl⟩ := hb
    exact hs c hc
  unfold decrypt_token encrypt_token
  have hdata : (String.mk (encrypt iv (s.data.map Char.toNat))).data
      = encrypt iv (s.data.map Char.toNat) := rfl
  rw [hdata, decrypt_encrypt hiv hbytes]
  have hid : Char.ofNat ∘ Char.toNat = id := funext Char.ofNat_toNat
  have hmap : List.map Char.ofNat (List.map Char.toNat s.data) = s.data := by
    rw [List.map_map, hid, List.map_id]
  simp only [Except.map, hmap]

/-! ## Data model and credential store

The persisted table `oauth_credentials` is modelled as a list of rows; a
supabase upsert updates the rows matching the conflict key and appends the
row otherwise. -/

/-- Embedding of the `OAuthTokenData` pydantic model of `src/utils/auth.py`. -/
structure OAuthTokenData where
  id : String
  access_token : String
  user_id : String
  refresh_token : Option String
  token_type : String
  expires_at : Option Int
  scope : Option String
deriving DecidableEq, Repr

/-- One row of the `oauth_credentials` table. -/
structure StoredRow where
  id : String
  user_id : String
  provider : String
  access_token : String
  refresh_token : Option String
  token_type : String
  expires_at : Option Int
  scope : Option String
  updated_at : Option Int
deriving DecidableEq, Repr

/-- Supabase `.upsert(row, on_conflict = key)`: rows matching the conflict
key are updated, otherwise the row is inserted. -/
def upsertBy (sameKey : StoredRow → StoredRow → Bool) (row : StoredRow)
    (store : List StoredRow) : List StoredRow :=
  if store.any (fun r => sameKey r row) then
    store.map (fun r => if sameKey r row then row else r)
  else store ++ [row]

/-- JSON body and status of the provider token endpoint's reply.  `text` is
the raw body used in error messages; `access_token`, `expires_in` and
`refresh_token` are the parsed fields (`none` when the key is absent). -/
structure TokenResponse where
  status_code : Nat
  access_token : Option String
  expires_in : Option Int
  refresh_token : Option String
  text : String
deriving DecidableEq, Repr

/-- What the `httpx` call to the token endpoint did. -/
inductive HttpOutcome
  /-- The endpoint answered (any status). -/
  | response (r : TokenResponse)
  /-- The transport raised (connect error, timeout, ...); the exception
  propagates to the caller of the refresh. -/
  | netError (msg : String)
deriving DecidableEq, Repr

/-- Result of `GoogleOAuthProvider.refresh_access_token`.  The source either
returns the mutated credential or raises; it has no error return value. -/
inductive RefreshOutcome
  /-- Normal return of the updated credential. -/
  | ok (credential : OAuthTokenData)
  /-- A Python exception propagates out of the call. -/
  | raised (msg : String)
deriving DecidableEq, Repr

/-- Exceptions that `TokenService` methods raise (there are no error return
values in the source other than `None` from `get_credentials`). -/
inductive ServiceError
  /-- Python raises `Exception` saying no credential was found for the user
  and provider. -/
  | noCredential (user_id provider : String)
  /-- Python raises `Exception` for an unsupported provider, from
  `TokenService.get_provider`. -/
  | unsupportedProvider (provider : String)
  /-- A `decrypt` failure propagating out of `TokenService.get_credentials`. -/
  | decryptFailure (e : DecryptError)
  /-- An exception propagating out of `refresh_access_token` (failed refresh,
  malformed body, or transport error). -/
  | providerRaised (msg : String)
deriving DecidableEq, Repr

/-- Embedding of `GoogleOAuthProvider.refresh_access_token`
(`src/utils/auth.py` lines 82-99): POST to the Google token endpoint; raise
`Exception(f"Failed to refresh token: {response.text}")` on a non-200 status;
otherwise read `access_token` and `expires_in` from the JSON body (a missing
key raises `KeyError`) and return the credential mutated in place with the
new `access_token` and `expires_at = now + expires_in`.  All other fields,
`refresh_token` included, are left untouched. -/
def GoogleOAuthProvider.refresh_access_token (now : Int) (http : HttpOutcome)
    (credential : OAuthTokenData) : RefreshOutcome :=
  match http with
  | HttpOutcome.netError msg => RefreshOutcome.raised msg
  | HttpOutcome.response response =>
    if response.status_code ≠ 200 then
      RefreshOutcome.raised ("Failed to refresh token: " ++ response.text)
    else
      match response.access_token with
      | none => RefreshOutcome.raised "KeyError: access_token"
      | some tok =>
        match response.expires_in with
        | none => RefreshOutcome.raised "KeyError: expires_in"
        | some ttl =>
          RefreshOutcome.ok { credential with
            access_token := tok, expires_at := some (now + ttl) }

/-- The `PROVIDERS` registry of `src/utils/auth.py`: both keys map to
`GoogleOAuthProvider()`. -/
def PROVIDERS : List String := ["gcal", "gmail"]

namespace TokenService

/-- The row dict `TokenService.save_credentials` builds: `access_token`
encrypted, `refresh_token` encrypted when truthy (Python: `None` and `""`
are falsy, and then `None` is stored), the row's `user_id` taken from the
`user_id` argument — not from `token_data.user_id`.  `iv_a` and `iv_r` are
the IVs `os.urandom` hands the two `encrypt` calls; `now` feeds
`updated_at`. -/
def saveRow (iv_a iv_r : List Nat) (now : Int) (user_id provider : String)
    (token_data : OAuthTokenData) : StoredRow :=
  { id := token_data.id, user_id := user_id, provider := provider,
    access_token := encrypt_token iv_a token_data.access_token,
    refresh_token :=
      match token_data.refresh_token with
      | some rt => if rt = "" then none else some (encrypt_token iv_r rt)
      | none => none,
    token_type := token_data.token_type,
    expires_at := token_data.expires_at,
    scope := token_data.scope,
    updated_at := some now }

/-- Embedding of `TokenService.save_credentials`: upsert the encrypted row
with `on_conflict = ["id", "provider"]`. -/
def save_credentials (iv_a iv_r : List Nat) (now : Int) (user_id provider : String)
    (token_data : OAuthTokenData) (store : List StoredRow) : List StoredRow :=
  upsertBy (fun r new => r.id == new.id && r.provider == new.provider)
    (saveRow iv_a iv_r now user_id provider token_data) store

/-- Single-row lookup `.eq("user_id", ..).eq("provider", ..).single()`. -/
def findRow (user_id provider : String) (store : List StoredRow) : Option StoredRow :=
  store.find? (fun r => r.user_id == user_id && r.provider == provider)

/-- Embedding of `TokenService.get_credentials`: look the row up by
`(user_id, provider)`, return `none` when absent, otherwise decrypt
`access_token` and the truthy `refresh_token` and rebuild the
`OAuthTokenData`.  A `decrypt` failure raises (error result). -/
def get_credentials (user_id provider : String) (store : List StoredRow) :
    Except ServiceError (Option OAuthTokenData) :=
  match findRow user_id provider store with
  | none => Except.ok none
  | some data =>
    match decrypt_token data.access_token with
    | Except.error e => Except.error (ServiceError.decryptFailure e)
    | Except.ok tok =>
      match (match data.refresh_token with
             | some rt =>
               if rt = "" then Except.ok none
               else (decrypt_token rt).map some
             | none => Except.ok (none : Option String)) with
      | Except.error e => Except.error (ServiceError.decryptFailure e)
      | Except.ok rtOpt =>
        Except.ok (some
          { id := data.id, user_id := data.user_id,
            access_token := tok, refresh_token := rtOpt,
            token_type := data.token_type, expires_at := data.expires_at,
            scope := data.scope })

/-- Refresh block of `TokenService.refresh_token_if_needed` (lines 198-204):
resolve the provider (raising `Unsupported provider` when unregistered),
call `refresh_access_token`, persist the result with `save_credentials`,
return it. -/
def attempt_refresh (now : Int) (http : HttpOutcome) (iv_a iv_r : List Nat)
    (user_id provider : String) (credential : OAuthTokenData)
    (store : List StoredRow) : Except ServiceError (OAuthTokenData × List StoredRow) :=
  if PROVIDERS.contains provider then
    match GoogleOAuthProvider.refresh_access_token now http credential with
    | RefreshOutcome.raised msg => Except.error (ServiceError.providerRaised msg)
    | RefreshOutcome.ok new_token_data =>
      Except.ok (new_token_data,
        save_credentials iv_a iv_r now user_id provider new_token_data store)
  else Except.error (ServiceError.unsupportedProvider provider)

/-- Embedding of `TokenService.refresh_token_if_needed` (`src/utils/auth.py`
lines 187-204): load the credential (raising when absent), return it
unchanged when `credential.expires_at and credential.expires_at > now` (a
`datetime` is always truthy, so the test is: present and in the future —
there is no safety margin), and otherwise refresh and persist. -/
def refresh_token_if_needed (now : Int) (http : HttpOutcome) (iv_a iv_r : List Nat)
    (user_id provider : String) (store : List StoredRow) :
    Except ServiceError (OAuthTokenData × List StoredRow) :=
  match get_credentials user_id provider store with
  | Except.error e => Except.error e
  | Except.ok none => Except.error (ServiceError.noCredential user_id provider)
  | Except.ok (some credential) =>
    match credential.expires_at with
    | some t =>
      if t > now then Except.ok (credential, store)
      else attempt_refresh now http iv_a iv_r user_id provider credential store
    | none => attempt_refresh now http iv_a iv_r user_id provider credential store

end TokenService

/-- Embedding of `upsert_oauth_credentials` of `src/utils/db.py`: upsert the
`token_data` fields verbatim — no encryption, no `on_conflict` argument (the
conflict target defaults to the primary key `id`), no `updated_at`. -/
def upsert_oauth_credentials (user_id provider : String) (token_data : OAuthTokenData)
    (store : List StoredRow) : List StoredRow :=
  upsertBy (fun r new => r.id == new.id)
    { id := token_data.id, user_id := user_id, provider := provider,
      access_token := token_data.access_token,
      refresh_token := token_data.refresh_token,
      token_type := token_data.token_type,
      expires_at := token_data.expires_at,
      scope := token_data.scope,
      updated_at := none } store

/-- Embedding of `get_expiring_oauth_credentials` of `src/utils/db.py`: rows
with `expires_at <= now + 1 day` (SQL `lte`, so `NULL` rows are excluded),
rebuilt as `OAuthTokenData(**row)` — the stored field values verbatim, no
decryption. -/
def get_expiring_oauth_credentials (now : Int) (store : List StoredRow) :
    List OAuthTokenData :=
  (store.filter (fun r =>
      match r.expires_at with
      | some t => decide (t ≤ now + 86400)
      | none => false)).map
    (fun r => { id := r.id, user_id := r.user_id, access_token := r.access_token,
                refresh_token := r.refresh_token, token_type := r.token_type,
                expires_at := r.expires_at, scope := r.scope })

/-- Embedding of `delete_oauth_credentials` of `src/utils/db.py`: delete every
row matching `(user_id, provider)`. -/
def delete_oauth_credentials (user_id provider : String)
    (store : List StoredRow) : List StoredRow :=
  store.filter (fun r => !(r.user_id == user_id && r.provider == provider))

/-- Pydantic attribute access `oauth_data.provider`, as performed twice by
`refresh_oauth_credential` in `src/jobs/token_refresh.py`.  The
`OAuthTokenData` model of `src/utils/auth.py` declares NO `provider` field,
and pydantic silently drops unknown row keys in `OAuthTokenData(**row)`
(its default is to ignore extras), so this attribute access raises
`AttributeError` for every instance of the model. -/
def providerAttr : OAuthTokenData → Except String String := fun _ =>
  Except.error "AttributeError: provider"

/-- Embedding of `refresh_oauth_credential` of `src/jobs/token_refresh.py`:
inside the `try`, call `TokenService.refresh_token_if_needed(
oauth_data.user_id, oauth_data.provider)`; `except Exception` catches
anything raised and calls `delete_oauth_credentials(oauth_data.user_id,
oauth_data.provider)`.  Both `oauth_data.provider` accesses go through
`providerAttr`; since that raises, the `except` block's own argument
evaluation re-raises `AttributeError`, which propagates with the store
untouched. -/
def refresh_oauth_credential (now : Int) (http : HttpOutcome) (iv_a iv_r : List Nat)
    (oauth_data : OAuthTokenData) (store : List StoredRow) :
    Except String (List StoredRow) :=
  match providerAttr oauth_data with
  | Except.ok provider =>
    match TokenService.refresh_token_if_needed now http iv_a iv_r
        oauth_data.user_id provider store with
    | Except.ok (_, store') => Except.ok store'
    | Except.error _ =>
      match providerAttr oauth_data with
      | Except.ok provider2 =>
        Except.ok (delete_oauth_credentials oauth_data.user_id provider2 store)
      | Except.error e => Except.error e
  | Except.error _ =>
    match providerAttr oauth_data with
    | Except.ok provider2 =>
      Except.ok (delete_oauth_credentials oauth_data.user_id provider2 store)
    | Except.error e => Except.error e

/-! ## The `src/mcp/goog/utils.py` variant

A second, independent refresh implementation backed by a Mongo collection of
`gcal-tokens` documents. -/

namespace goog

/-- One document of the `gcal-tokens` collection (`save_tokens` stores
`refresh_token` as `""` when the provider sent none). -/
structure UserToken where
  user_id : String
  access_token : String
  refresh_token : String
  expiry_date : Int
deriving DecidableEq, Repr

/-- What the `refresh_token_if_needed` coroutine of `src/mcp/goog/utils.py`
does, paired below with the resulting collection state. -/
inductive GoogOutcome
  /-- Returned `None` (no document, or expired with no refresh token). -/
  | noToken
  /-- Returned the token document. -/
  | token (t : UserToken)
  /-- A Python exception propagates (transport error from `httpx`, `KeyError`
  on a malformed 200 body, or the `TypeError` from `await save_tokens(..)` —
  `save_tokens` is a plain `def`, so awaiting its dict result raises after
  the document was already written). -/
  | raised (msg : String)
deriving DecidableEq, Repr

/-- Mongo `update_one`: update the first matching document. -/
def updateFirst (p : UserToken → Bool) (new : UserToken) : List UserToken → List UserToken
  | [] => []
  | x :: xs => if p x then new :: xs else x :: updateFirst p new xs

/-- Embedding of `save_tokens` of `src/mcp/goog/utils.py`: build the document
(`refresh_token` defaults to `""`, `expiry_date = now + expires_in`), then
update the existing document for the user or insert a new one. -/
def save_tokens (now : Int) (user_id access_token : String)
    (refresh_token : Option String) (expires_in : Int)
    (store : List UserToken) : UserToken × List UserToken :=
  let user_token : UserToken :=
    { user_id := user_id, access_token := access_token,
      refresh_token := refresh_token.getD "", expiry_date := now + expires_in }
  if store.any (fun t => t.user_id == user_id) then
    (user_token, updateFirst (fun t => t.user_id == user_id) user_token store)
  else (user_token, store ++ [user_token])

/-- Embedding of `refresh_token_if_needed` of `src/mcp/goog/utils.py` (lines
144-175): return `None` when the user has no document; when
`current_time + 300 >= expiry_date` (5-minute margin) return `None` if the
stored `refresh_token` is falsy, otherwise POST the refresh; on HTTP 200
carry the stored `refresh_token` over when the reply brought none and persist
via `save_tokens` (whose awaited dict then raises `TypeError`); on any other
status fall through and return the stale stored document.  Outside the margin
return the stored document without any network call. -/
def refresh_token_if_needed (current_time : Int) (http : HttpOutcome)
    (user_id : String) (store : List UserToken) : GoogOutcome × List UserToken :=
  match store.find? (fun t => t.user_id == user_id) with
  | none => (GoogOutcome.noToken, store)
  | some user_token =>
    if current_time + 300 ≥ user_token.expiry_date then
      if user_token.refresh_token == "" then (GoogOutcome.noToken, store)
      else
        match http with
        | HttpOutcome.netError msg => (GoogOutcome.raised msg, store)
        | HttpOutcome.response response =>
          if response.status_code == 200 then
            let new_refresh : Option String :=
              match response.refresh_token with
              | some r => some r
              | none =>
                if user_token.refresh_token == "" then none
                else some user_token.refresh_token
            match response.access_token, response.expires_in with
            | some a, some e =>
              let result := save_tokens current_time user_id a new_refresh e store
              (GoogOutcome.raised "TypeError: await on the dict save_tokens returned",
                result.2)
            | _, _ => (GoogOutcome.raised "KeyError", store)
          else (GoogOutcome.token user_token, store)
    else (GoogOutcome.token user_token, store)

end goog

/-! ## Shared lemmas about the store -/

theorem upsertBy_not_exists {sameKey : StoredRow → StoredRow → Bool} {row : StoredRow}
    {store : List StoredRow} (h : store.any (fun r => sameKey r row) = false) :
    upsertBy sameKey row store = store ++ [row] := by
  simp [upsertBy, h]

theorem upsertBy_self_mem (sameKey : StoredRow → StoredRow → Bool) (row : StoredRow)
    (store : List StoredRow) : row ∈ upsertBy sameKey row store := by
  unfold upsertBy
  split
  · rename_i h
    rw [List.any_eq_true] at h
    obtain ⟨r, hr, hkey⟩ := h
    exact List.mem_map.mpr ⟨r, hr, by simp [hkey]⟩
  · exact List.mem_append_right _ (List.mem_singleton.mpr rfl)

theorem find?_append_of_none {p : StoredRow → Bool} {l1 : List StoredRow}
    (l2 : List StoredRow) (h : l1.find? p = none) :
    (l1 ++ l2).find? p = l2.find? p := by
  induction l1 with
  | nil => rfl
  | cons x xs ih =>
    by_cases hp : p x
    · rw [List.find?_cons_of_pos _ hp] at h
      cases h
    · rw [List.find?_cons_of_neg _ hp] at h
      rw [List.cons_append, List.find?_cons_of_neg _ hp]
      exact ih h

theorem any_eq_false_of_countP_zero {k : StoredRow → Bool} {store : List StoredRow}
    (h : store.countP k = 0) : store.any k = false := by
  cases hany : store.any k
  · rfl
  · exfalso
    obtain ⟨x, hx, hkx⟩ := List.any_eq_true.mp hany
    have := List.countP_pos_iff.mpr ⟨x, hx, hkx⟩
    omega

theorem filter_map_replace (k : StoredRow → Bool) (row : StoredRow) (hrow : k row = true)
    (store : List StoredRow) :
    (store.map (fun r => if k r then row else r)).filter k
      = List.replicate (store.countP k) row := by
  induction store with
  | nil => rfl
  | cons x xs ih =>
    by_cases hx : k x
    · simp [List.countP_cons, hx, List.filter_cons, hrow, ih, List.replicate_succ]
    · simp [List.countP_cons, hx, List.filter_cons, ih]

theorem encrypt_ne_nil (iv pt : List Nat) : encrypt iv pt ≠ [] := by
  simp [encrypt]

theorem encrypt_token_ne_empty (iv : List Nat) (s : String) : encrypt_token iv s ≠ "" := by
  intro h
  have hdata : encrypt iv (s.data.map Char.toNat) = [] := congrArg String.data h
  exact encrypt_ne_nil _ _ hdata

/-! ## Claims about the Cipher -/

/-- C8: round trip of the Cipher of `src/utils/auth.py`: decrypting the
encryption of any byte string — in particular the UTF-8 encoding of any
valid string, whose bytes are all `< 256` — under the process key returns it
exactly.  The IV is the 16 random bytes `encrypt` draws; the statement holds
for every IV. -/
theorem c8_decrypt_encrypt_roundtrip (iv pt : List Nat)
    (hiv : ∀ b ∈ iv, b < 256) (hpt : ∀ b ∈ pt, b < 256) :
    decrypt (encrypt iv pt) = Except.ok pt :=
  decrypt_encrypt hiv hpt

/-- C8 witness: the round trip evaluated at a concrete IV and plaintext. -/
theorem c8_witness :
    (∀ b ∈ List.range 16, b < 256) ∧ (∀ b ∈ [104, 105], b < 256) ∧
      decrypt (encrypt (List.range 16) [104, 105]) = Except.ok [104, 105] :=
  ⟨by decide, by decide,
    c8_decrypt_encrypt_roundtrip (List.range 16) [104, 105] (by decide) (by decide)⟩

/-- C9: `decrypt` fails with the malformed-format error (`ValueError`) on any
input that does not split into exactly three colon-separated segments, before
any decryption work; on a three-segment input whose segments are valid hex
but whose authentication tag does not verify it fails with the
authentication-failure error (`InvalidTag`); and any plaintext it does
return came from an input whose tag verified — never unverified or partial
plaintext. -/
theorem c9_decrypt_error_handling :
    (∀ s : List Char, (splitColon s).length ≠ 3 →
        decrypt s = Except.error DecryptError.malformed) ∧
    (∀ (s p0 p1 p2 : List Char) (iv tag ct : List Nat),
        splitColon s = [p0, p1, p2] →
        unhexBytes p0 = some iv → unhexBytes p1 = some tag →
        unhexBytes p2 = some ct → tag ≠ authTagBytes iv ct →
        decrypt s = Except.error DecryptError.authFailure) ∧
    (∀ (s : List Char) (pt : List Nat), decrypt s = Except.ok pt →
        ∃ p0 p1 p2 iv tag ct, splitColon s = [p0, p1, p2] ∧
          unhexBytes p0 = some iv ∧ unhexBytes p1 = some tag ∧
          unhexBytes p2 = some ct ∧ authTagBytes iv ct = tag ∧
          pt = gcmXor iv 0 ct) := by
  refine ⟨?_, ?_, ?_⟩
  · intro s h
    unfold decrypt
    split
    · rename_i p0 p1 p2 heq
      rw [heq] at h
      simp at h
    · rfl
  · intro s p0 p1 p2 iv tag ct hsplit h0 h1 h2 hne
    simp only [decrypt, hsplit, h0, h1, h2]
    rw [if_neg (fun h => hne h.symm)]
  · intro s pt h
    unfold decrypt at h
    split at h
    · rename_i p0 p1 p2 hsplit
      split at h
      · rename_i iv tag ct h0 h1 h2
        split at h
        · rename_i htag
          simp only [Except.ok.injEq] at h
          exact ⟨p0, p1, p2, iv, tag, ct, hsplit, h0, h1, h2, htag, h.symm⟩
        · cases h
      · cases h
    · cases h

/-- C9 witness: a one-segment input fails as malformed; a three-segment hex
input with a wrong tag fails authentication. -/
theorem c9_witness :
    decrypt ("ab".data) = Except.error DecryptError.malformed ∧
      decrypt ("00:00:00".data) = Except.error DecryptError.authFailure :=
  ⟨c9_decrypt_error_handling.1 ("ab".data) (by decide),
    c9_decrypt_error_handling.2.1 ("00:00:00".data) ("00".data) ("00".data) ("00".data)
      [0] [0] [0] (by decide) (by decide) (by decide) (by decide) (by decide)⟩

/-! ## Helper lemmas about `TokenService` -/

theorem save_credentials_of_no_conflict {iv_a iv_r : List Nat} {now : Int}
    {u p : String} {td : OAuthTokenData} {store : List StoredRow}
    (h : store.any (fun r => r.id == td.id && r.provider == p) = false) :
    TokenService.save_credentials iv_a iv_r now u p td store
      = store ++ [TokenService.saveRow iv_a iv_r now u p td] := by
  unfold TokenService.save_credentials
  exact upsertBy_not_exists h

theorem get_credentials_of_found {u p : String} {store : List StoredRow}
    {data : StoredRow} {tok ert rt : String}
    (hfind : TokenService.findRow u p store = some data)
    (hdec : decrypt_token data.access_token = Except.ok tok)
    (hrt : data.refresh_token = some ert) (hertne : ¬ ert = "")
    (hdecr : decrypt_token ert = Except.ok rt) :
    TokenService.get_credentials u p store = Except.ok (some
      { id := data.id, user_id := data.user_id, access_token := tok,
        refresh_token := some rt, token_type := data.token_type,
        expires_at := data.expires_at, scope := data.scope }) := by
  unfold TokenService.get_credentials
  rw [hfind]
  simp [hdec, hrt, hertne, hdecr, Except.map]

theorem refresh_token_if_needed_of_get {now : Int} {http : HttpOutcome}
    {iv_a iv_r : List Nat} {u p : String} {store : List StoredRow}
    {cred : OAuthTokenData}
    (hget : TokenService.get_credentials u p store = Except.ok (some cred)) :
    TokenService.refresh_token_if_needed now http iv_a iv_r u p store =
      match cred.expires_at with
      | some t =>
        if t > now then Except.ok (cred, store)
        else TokenService.attempt_refresh now http iv_a iv_r u p cred store
      | none => TokenService.attempt_refresh now http iv_a iv_r u p cred store := by
  unfold TokenService.refresh_token_if_needed
  rw [hget]

theorem attempt_refresh_netError {now : Int} {iv_a iv_r : List Nat} {u p : String}
    {cred : OAuthTokenData} {store : List StoredRow}
    (hp : PROVIDERS.contains p = true) (msg : String) :
    TokenService.attempt_refresh now (HttpOutcome.netError msg) iv_a iv_r u p cred store
      = Except.error (ServiceError.providerRaised msg) := by
  have hmem : p ∈ PROVIDERS := by simpa using hp
  simp [TokenService.attempt_refresh, hmem, GoogleOAuthProvider.refresh_access_token]

theorem attempt_refresh_non200 {now : Int} {iv_a iv_r : List Nat} {u p : String}
    {cred : OAuthTokenData} {store : List StoredRow} {resp : TokenResponse}
    (hp : PROVIDERS.contains p = true) (hst : resp.status_code ≠ 200) :
    TokenService.attempt_refresh now (HttpOutcome.response resp) iv_a iv_r u p cred store
      = Except.error (ServiceError.providerRaised
          ("Failed to refresh token: " ++ resp.text)) := by
  have hmem : p ∈ PROVIDERS := by simpa using hp
  simp [TokenService.attempt_refresh, hmem, GoogleOAuthProvider.refresh_access_token, hst]

theorem attempt_refresh_200 {now : Int} {iv_a iv_r : List Nat} {u p : String}
    {cred : OAuthTokenData} {store : List StoredRow} {resp : TokenResponse}
    {a : String} {ttl : Int}
    (hp : PROVIDERS.contains p = true) (hst : resp.status_code = 200)
    (ha : resp.access_token = some a) (he : resp.expires_in = some ttl) :
    TokenService.attempt_refresh now (HttpOutcome.response resp) iv_a iv_r u p cred store
      = Except.ok ({ cred with access_token := a, expires_at := some (now + ttl) },
          TokenService.save_credentials iv_a iv_r now u p
            { cred with access_token := a, expires_at := some (now + ttl) } store) := by
  have hmem : p ∈ PROVIDERS := by simpa using hp
  simp [TokenService.attempt_refresh, hmem, GoogleOAuthProvider.refresh_access_token,
    hst, ha, he]

theorem attempt_refresh_unsupported {now : Int} {http : HttpOutcome}
    {iv_a iv_r : List Nat} {u p : String} {cred : OAuthTokenData}
    {store : List StoredRow} (hp : PROVIDERS.contains p = false) :
    TokenService.attempt_refresh now http iv_a iv_r u p cred store
      = Except.error (ServiceError.unsupportedProvider p) := by
  have hmem : p ∉ PROVIDERS := by
    intro hmem
    have : PROVIDERS.contains p = true := by simpa using hmem
    rw [this] at hp
    cases hp
  simp [TokenService.attempt_refresh, hmem]

theorem attempt_refresh_200_missing_access {now : Int} {iv_a iv_r : List Nat}
    {u p : String} {cred : OAuthTokenData} {store : List StoredRow}
    {resp : TokenResponse}
    (hp : PROVIDERS.contains p = true) (hst : resp.status_code = 200)
    (ha : resp.access_token = none) :
    TokenService.attempt_refresh now (HttpOutcome.response resp) iv_a iv_r u p cred store
      = Except.error (ServiceError.providerRaised "KeyError: access_token") := by
  have hmem : p ∈ PROVIDERS := by simpa using hp
  simp [TokenService.attempt_refresh, hmem, GoogleOAuthProvider.refresh_access_token,
    hst, ha]

theorem attempt_refresh_200_missing_expires {now : Int} {iv_a iv_r : List Nat}
    {u p : String} {cred : OAuthTokenData} {store : List StoredRow}
    {resp : TokenResponse} {a : String}
    (hp : PROVIDERS.contains p = true) (hst : resp.status_code = 200)
    (ha : resp.access_token = some a) (he : resp.expires_in = none) :
    TokenService.attempt_refresh now (HttpOutcome.response resp) iv_a iv_r u p cred store
      = Except.error (ServiceError.providerRaised "KeyError: expires_in") := by
  have hmem : p ∈ PROVIDERS := by simpa using hp
  simp [TokenService.attempt_refresh, hmem, GoogleOAuthProvider.refresh_access_token,
    hst, ha, he]

/-! ## Claims about the refresh logic -/

/-- C5 counterexample: at a concrete non-200 provider reply (`invalid_grant`,
an expected failure mode), `GoogleOAuthProvider.refresh_access_token` raises
`Exception` — the outcome is `raised`, not a returned error value —
contradicting the claim that it returns a `RefreshError` and does not raise. -/
theorem c5_counterexample :
    GoogleOAuthProvider.refresh_access_token 0
        (HttpOutcome.response
          { status_code := 400, access_token := none, expires_in := none,
            refresh_token := none, text := "invalid_grant" })
        { id := "i1", access_token := "a1", user_id := "u1",
          refresh_token := some "r1", token_type := "Bearer",
          expires_at := some 0, scope := none }
      = RefreshOutcome.raised "Failed to refresh token: invalid_grant" := by decide

/-- C5 (amended): `GoogleOAuthProvider.refresh_access_token` has no error
return value at all (`RefreshOutcome` has only `ok` and `raised`); every
expected failure mode raises: a non-200 status raises `Exception` carrying
the provider's response text, a 200 reply whose body lacks `access_token` or
`expires_in` raises `KeyError`, and a transport failure propagates out of
the call. -/
theorem c5_refresh_failures_raise :
    (∀ (now : Int) (cred : OAuthTokenData) (resp : TokenResponse),
        resp.status_code ≠ 200 →
        GoogleOAuthProvider.refresh_access_token now (HttpOutcome.response resp) cred
          = RefreshOutcome.raised ("Failed to refresh token: " ++ resp.text)) ∧
    (∀ (now : Int) (cred : OAuthTokenData) (resp : TokenResponse),
        resp.status_code = 200 → resp.access_token = none →
        GoogleOAuthProvider.refresh_access_token now (HttpOutcome.response resp) cred
          = RefreshOutcome.raised "KeyError: access_token") ∧
    (∀ (now : Int) (cred : OAuthTokenData) (resp : TokenResponse) (a : String),
        resp.status_code = 200 → resp.access_token = some a → resp.expires_in = none →
        GoogleOAuthProvider.refresh_access_token now (HttpOutcome.response resp) cred
          = RefreshOutcome.raised "KeyError: expires_in") ∧
    (∀ (now : Int) (cred : OAuthTokenData) (msg : String),
        GoogleOAuthProvider.refresh_access_token now (HttpOutcome.netError msg) cred
          = RefreshOutcome.raised msg) := by
  refine ⟨?_, ?_, ?_, ?_⟩
  · intro now cred resp h
    simp [GoogleOAuthProvider.refresh_access_token, h]
  · intro now cred resp h ha
    simp [GoogleOAuthProvider.refresh_access_token, h, ha]
  · intro now cred resp a h ha he
    simp [GoogleOAuthProvider.refresh_access_token, h, ha, he]
  · intro now cred msg
    rfl

/-- C5 witness: the raise-on-failure behaviour evaluated at a concrete 403
reply. -/
theorem c5_witness :
    ((403 : Nat) ≠ 200) ∧
      GoogleOAuthProvider.refresh_access_token 5
        (HttpOutcome.response
          { status_code := 403, access_token := none, expires_in := none,
            refresh_token := none, text := "forbidden" })
        { id := "i2", access_token := "a2", user_id := "u2",
          refresh_token := none, token_type := "Bearer",
          expires_at := none, scope := none }
      = RefreshOutcome.raised "Failed to refresh token: forbidden" :=
  ⟨by decide,
    c5_refresh_failures_raise.1 5
      { id := "i2", access_token := "a2", user_id := "u2",
        refresh_token := none, token_type := "Bearer",
        expires_at := none, scope := none }
      { status_code := 403, access_token := none, expires_in := none,
        refresh_token := none, text := "forbidden" }
      (by decide)⟩

set_option maxRecDepth 32768 in
/-- C4 counterexample: a stored credential whose `expires_at` is absent is
NOT returned immediately: `TokenService.refresh_token_if_needed` goes to the
provider (here the transport times out, and the exception propagates),
because the Python guard `if credential.expires_at and ...` treats `None` as
needing refresh. -/
theorem c4_counterexample :
    TokenService.refresh_token_if_needed 1000 (HttpOutcome.netError "timeout")
        (List.range 16) (List.range 16) "u1" "gcal"
        [{ id := "i1", user_id := "u1", provider := "gcal",
           access_token := encrypt_token (List.range 16) "a1",
           refresh_token := some (encrypt_token (List.range 16) "r1"),
           token_type := "Bearer", expires_at := none, scope := none,
           updated_at := none }]
      = Except.error (ServiceError.providerRaised "timeout") := by decide

/-- C4 (amended): a stored credential with absent `expires_at` is treated as
needing refresh, not as non-expiring: `TokenService.refresh_token_if_needed`
always attempts the provider refresh for it — a transport failure propagates
as an exception, and a 200 reply produces a refreshed credential that is
persisted via `save_credentials` — instead of returning the credential
immediately with no network call and no store write. -/
theorem c4_absent_expiry_refreshes :
    (∀ (now : Int) (msg : String) (iv_a iv_r : List Nat) (u p : String)
        (store : List StoredRow) (cred : OAuthTokenData),
        TokenService.get_credentials u p store = Except.ok (some cred) →
        cred.expires_at = none → PROVIDERS.contains p = true →
        TokenService.refresh_token_if_needed now (HttpOutcome.netError msg)
            iv_a iv_r u p store
          = Except.error (ServiceError.providerRaised msg)) ∧
    (∀ (now : Int) (iv_a iv_r : List Nat) (u p : String) (store : List StoredRow)
        (cred : OAuthTokenData) (resp : TokenResponse) (a : String) (ttl : Int),
        TokenService.get_credentials u p store = Except.ok (some cred) →
        cred.expires_at = none → PROVIDERS.contains p = true →
        resp.status_code = 200 → resp.access_token = some a →
        resp.expires_in = some ttl →
        TokenService.refresh_token_if_needed now (HttpOutcome.response resp)
            iv_a iv_r u p store
          = Except.ok ({ cred with access_token := a, expires_at := some (now + ttl) },
              TokenService.save_credentials iv_a iv_r now u p
                { cred with access_token := a, expires_at := some (now + ttl) } store)) := by
  constructor
  · intro now msg iv_a iv_r u p store cred hget hexp hp
    rw [refresh_token_if_needed_of_get hget, hexp]
    exact attempt_refresh_netError hp msg
  · intro now iv_a iv_r u p store cred resp a ttl hget hexp hp hst ha he
    rw [refresh_token_if_needed_of_get hget, hexp]
    exact attempt_refresh_200 hp hst ha he

set_option maxRecDepth 32768 in
/-- C4 witness: the amended behaviour evaluated on a concrete store holding a
credential without `expires_at`, against a live 200 reply. -/
theorem c4_witness :
    TokenService.refresh_token_if_needed 50 (HttpOutcome.response
        { status_code := 200, access_token := some "fresh", expires_in := some 60,
          refresh_token := none, text := "" })
        (List.range 16) (List.range 16) "u4" "gmail"
        [{ id := "i4", user_id := "u4", provider := "gmail",
           access_token := encrypt_token (List.range 16) "a4",
           refresh_token := none,
           token_type := "Bearer", expires_at := none, scope := none,
           updated_at := none }]
      = Except.ok
          ({ id := "i4", access_token := "fresh", user_id := "u4",
             refresh_token := none, token_type := "Bearer",
             expires_at := some 110, scope := none },
           TokenService.save_credentials (List.range 16) (List.range 16) 50 "u4" "gmail"
             { id := "i4", access_token := "fresh", user_id := "u4",
               refresh_token := none, token_type := "Bearer",
               expires_at := some 110, scope := none }
             [{ id := "i4", user_id := "u4", provider := "gmail",
                access_token := encrypt_token (List.range 16) "a4",
                refresh_token := none,
                token_type := "Bearer", expires_at := none, scope := none,
                updated_at := none }]) :=
  c4_absent_expiry_refreshes.2 50 (List.range 16) (List.range 16) "u4" "gmail"
    [{ id := "i4", user_id := "u4", provider := "gmail",
       access_token := encrypt_token (List.range 16) "a4",
       refresh_token := none,
       token_type := "Bearer", expires_at := none, scope := none,
       updated_at := none }]
    { id := "i4", access_token := "a4", user_id := "u4",
      refresh_token := none, token_type := "Bearer",
      expires_at := none, scope := none }
    { status_code := 200, access_token := some "fresh", expires_in := some 60,
      refresh_token := none, text := "" }
    "fresh" 60 (by decide) (by decide) (by decide) (by decide) (by decide) (by decide)

set_option maxRecDepth 32768 in
/-- C2 counterexample: a stored credential with `expires_at = now + 4:59`
(now = 1000, expiry 1299, margin 299 s < 300 s): the claim requires a
refresh, but `TokenService.refresh_token_if_needed` returns the stored
credential with the store untouched — identically under a dead network and
under a live 200 reply, so no network call is involved. -/
theorem c2_counterexample :
    (TokenService.refresh_token_if_needed 1000 (HttpOutcome.netError "timeout")
        (List.range 16) (List.range 16) "u1" "gcal"
        [{ id := "i1", user_id := "u1", provider := "gcal",
           access_token := encrypt_token (List.range 16) "a1",
           refresh_token := some (encrypt_token (List.range 16) "r1"),
           token_type := "Bearer", expires_at := some 1299, scope := none,
           updated_at := none }]
      = Except.ok
          ({ id := "i1", access_token := "a1", user_id := "u1",
             refresh_token := some "r1", token_type := "Bearer",
             expires_at := some 1299, scope := none },
           [{ id := "i1", user_id := "u1", provider := "gcal",
              access_token := encrypt_token (List.range 16) "a1",
              refresh_token := some (encrypt_token (List.range 16) "r1"),
              token_type := "Bearer", expires_at := some 1299, scope := none,
              updated_at := none }])) ∧
    (TokenService.refresh_token_if_needed 1000
        (HttpOutcome.response
          { status_code := 200, access_token := some "a2", expires_in := some 3600,
            refresh_token := none, text := "" })
        (List.range 16) (List.range 16) "u1" "gcal"
        [{ id := "i1", user_id := "u1", provider := "gcal",
           access_token := encrypt_token (List.range 16) "a1",
           refresh_token := some (encrypt_token (List.range 16) "r1"),
           token_type := "Bearer", expires_at := some 1299, scope := none,
           updated_at := none }]
      = Except.ok
          ({ id := "i1", access_token := "a1", user_id := "u1",
             refresh_token := some "r1", token_type := "Bearer",
             expires_at := some 1299, scope := none },
           [{ id := "i1", user_id := "u1", provider := "gcal",
              access_token := encrypt_token (List.range 16) "a1",
              refresh_token := some (encrypt_token (List.range 16) "r1"),
              token_type := "Bearer", expires_at := some 1299, scope := none,
              updated_at := none }])) := by
  constructor
  · decide
  · decide

/-- C2 (amended): the 300-second safety margin exists only in the
`src/mcp/goog/utils.py` implementation, which attempts the provider refresh
exactly when `now + 300 ≥ expiry_date` and otherwise returns the stored
token with no network call; `TokenService.refresh_token_if_needed`
(`src/utils/auth.py`) applies NO margin: it returns the stored credential
unchanged — no network call, no store write — whenever `expires_at > now`
(hence also at `expires_at = now + 4:59`), and attempts a refresh exactly
when `expires_at ≤ now`. -/
theorem c2_freshness_boundary :
    (∀ (now t : Int) (http : HttpOutcome) (iv_a iv_r : List Nat) (u p : String)
        (store : List StoredRow) (cred : OAuthTokenData),
        TokenService.get_credentials u p store = Except.ok (some cred) →
        cred.expires_at = some t → t > now →
        TokenService.refresh_token_if_needed now http iv_a iv_r u p store
          = Except.ok (cred, store)) ∧
    (∀ (now t : Int) (msg : String) (iv_a iv_r : List Nat) (u p : String)
        (store : List StoredRow) (cred : OAuthTokenData),
        TokenService.get_credentials u p store = Except.ok (some cred) →
        cred.expires_at = some t → t ≤ now → PROVIDERS.contains p = true →
        TokenService.refresh_token_if_needed now (HttpOutcome.netError msg)
            iv_a iv_r u p store
          = Except.error (ServiceError.providerRaised msg)) ∧
    (∀ (ct : Int) (msg : String) (u : String) (store : List goog.UserToken)
        (tok : goog.UserToken),
        store.find? (fun t => t.user_id == u) = some tok →
        ct + 300 ≥ tok.expiry_date → tok.refresh_token ≠ "" →
        goog.refresh_token_if_needed ct (HttpOutcome.netError msg) u store
          = (goog.GoogOutcome.raised msg, store)) ∧
    (∀ (ct : Int) (http : HttpOutcome) (u : String) (store : List goog.UserToken)
        (tok : goog.UserToken),
        store.find? (fun t => t.user_id == u) = some tok →
        ct + 300 < tok.expiry_date →
        goog.refresh_token_if_needed ct http u store
          = (goog.GoogOutcome.token tok, store)) := by
  refine ⟨?_, ?_, ?_, ?_⟩
  · intro now t http iv_a iv_r u p store cred hget hexp ht
    rw [refresh_token_if_needed_of_get hget, hexp]
    simp [ht]
  · intro now t msg iv_a iv_r u p store cred hget hexp ht hp
    rw [refresh_token_if_needed_of_get hget, hexp]
    have hne : ¬ t > now := by omega
    simp [hne, attempt_refresh_netError hp msg]
  · intro ct msg u store tok hfind hmargin hrt
    unfold goog.refresh_token_if_needed
    rw [hfind]
    simp [hmargin, hrt]
  · intro ct http u store tok hfind hlt
    unfold goog.refresh_token_if_needed
    rw [hfind]
    have hne : ¬ ct + 300 ≥ tok.expiry_date := by omega
    simp [hne]

set_option maxRecDepth 32768 in
/-- C2 witness: the amended boundary behaviour evaluated concretely on both
implementations: `TokenService` keeps a credential expiring in 299 s and
refuses one already at `now`; the goog variant attempts the refresh at
299 s to expiry and keeps a token 301 s from expiry. -/
theorem c2_witness :
    (TokenService.refresh_token_if_needed 2000 (HttpOutcome.netError "down")
        (List.range 16) (List.range 16) "u2" "gmail"
        [{ id := "i2", user_id := "u2", provider := "gmail",
           access_token := encrypt_token (List.range 16) "x1",
           refresh_token := none,
           token_type := "Bearer", expires_at := some 2299, scope := none,
           updated_at := none }]
      = Except.ok
          ({ id := "i2", access_token := "x1", user_id := "u2",
             refresh_token := none, token_type := "Bearer",
             expires_at := some 2299, scope := none },
           [{ id := "i2", user_id := "u2", provider := "gmail",
              access_token := encrypt_token (List.range 16) "x1",
              refresh_token := none,
              token_type := "Bearer", expires_at := some 2299, scope := none,
              updated_at := none }])) ∧
    (TokenService.refresh_token_if_needed 2000 (HttpOutcome.netError "down")
        (List.range 16) (List.range 16) "u3" "gmail"
        [{ id := "i3", user_id := "u3", provider := "gmail",
           access_token := encrypt_token (List.range 16) "x2",
           refresh_token := none,
           token_type := "Bearer", expires_at := some 2000, scope := none,
           updated_at := none }]
      = Except.error (ServiceError.providerRaised "down")) ∧
    (goog.refresh_token_if_needed 5000 (HttpOutcome.netError "down") "g1"
        [{ user_id := "g1", access_token := "ga", refresh_token := "gr",
           expiry_date := 5299 }]
      = (goog.GoogOutcome.raised "down",
         [{ user_id := "g1", access_token := "ga", refresh_token := "gr",
            expiry_date := 5299 }])) ∧
    (goog.refresh_token_if_needed 5000 (HttpOutcome.netError "down") "g1"
        [{ user_id := "g1", access_token := "ga", refresh_token := "gr",
           expiry_date := 5301 }]
      = (goog.GoogOutcome.token
           { user_id := "g1", access_token := "ga", refresh_token := "gr",
             expiry_date := 5301 },
         [{ user_id := "g1", access_token := "ga", refresh_token := "gr",
            expiry_date := 5301 }])) :=
  ⟨c2_freshness_boundary.1 2000 2299 (HttpOutcome.netError "down")
      (List.range 16) (List.range 16) "u2" "gmail"
      [{ id := "i2", user_id := "u2", provider := "gmail",
         access_token := encrypt_token (List.range 16) "x1",
         refresh_token := none,
         token_type := "Bearer", expires_at := some 2299, scope := none,
         updated_at := none }]
      { id := "i2", access_token := "x1", user_id := "u2",
        refresh_token := none, token_type := "Bearer",
        expires_at := some 2299, scope := none }
      (by decide) (by decide) (by decide),
    c2_freshness_boundary.2.1 2000 2000 "down"
      (List.range 16) (List.range 16) "u3" "gmail"
      [{ id := "i3", user_id := "u3", provider := "gmail",
         access_token := encrypt_token (List.range 16) "x2",
         refresh_token := none,
         token_type := "Bearer", expires_at := some 2000, scope := none,
         updated_at := none }]
      { id := "i3", access_token := "x2", user_id := "u3",
        refresh_token := none, token_type := "Bearer",
        expires_at := some 2000, scope := none }
      (by decide) (by decide) (by decide) (by decide),
    c2_freshness_boundary.2.2.1 5000 "down" "g1"
      [{ user_id := "g1", access_token := "ga", refresh_token := "gr",
         expiry_date := 5299 }]
      { user_id := "g1", access_token := "ga", refresh_token := "gr",
        expiry_date := 5299 }
      (by decide) (by decide) (by decide),
    c2_freshness_boundary.2.2.2 5000 (HttpOutcome.netError "down") "g1"
      [{ user_id := "g1", access_token := "ga", refresh_token := "gr",
         expiry_date := 5301 }]
      { user_id := "g1", access_token := "ga", refresh_token := "gr",
        expiry_date := 5301 }
      (by decide) (by decide)⟩

set_option maxRecDepth 32768 in
/-- C3 counterexample: a stored credential with `expires_at` in the past and
`refresh_token = null` does NOT fail with an explicit unrefreshable error:
`TokenService.refresh_token_if_needed` performs no refresh-token presence
check and goes straight to the provider, and under a 200 reply it even
succeeds and returns a refreshed credential (stored row re-encrypted and
updated). -/
theorem c3_counterexample :
    TokenService.refresh_token_if_needed 1000
        (HttpOutcome.response
          { status_code := 200, access_token := some "a2", expires_in := some 3600,
            refresh_token := none, text := "" })
        (List.range 16) (List.range 16) "u1" "gcal"
        [{ id := "i1", user_id := "u1", provider := "gcal",
           access_token := encrypt_token (List.range 16) "a1",
           refresh_token := none,
           token_type := "Bearer", expires_at := some 500, scope := none,
           updated_at := none }]
      = Except.ok
          ({ id := "i1", access_token := "a2", user_id := "u1",
             refresh_token := none, token_type := "Bearer",
             expires_at := some 4600, scope := none },
           [{ id := "i1", user_id := "u1", provider := "gcal",
              access_token := encrypt_token (List.range 16) "a2",
              refresh_token := none,
              token_type := "Bearer", expires_at := some 4600, scope := none,
              updated_at := some 1000 }]) := by decide

/-- C3 (amended): for an expired credential without a refresh token,
`TokenService.refresh_token_if_needed` has no explicit unrefreshable check:
it attempts the provider refresh anyway, and when the provider rejects it
(non-200) it raises the generic `Failed to refresh token` exception; any
credential it does return on the refresh path carries the provider's fresh
`access_token` and `expires_at` — never the stale stored token.  The
`src/mcp/goog/utils.py` variant does check: with the token inside the margin
and a falsy `refresh_token` it returns `None`, with no network call and no
store write. -/
theorem c3_unrefreshable_behaviour :
    (∀ (now t : Int) (iv_a iv_r : List Nat) (u p : String) (store : List StoredRow)
        (cred : OAuthTokenData) (resp : TokenResponse),
        TokenService.get_credentials u p store = Except.ok (some cred) →
        cred.expires_at = some t → t ≤ now → cred.refresh_token = none →
        PROVIDERS.contains p = true → resp.status_code ≠ 200 →
        TokenService.refresh_token_if_needed now (HttpOutcome.response resp)
            iv_a iv_r u p store
          = Except.error (ServiceError.providerRaised
              ("Failed to refresh token: " ++ resp.text))) ∧
    (∀ (now t : Int) (iv_a iv_r : List Nat) (u p : String) (store : List StoredRow)
        (cred cred' : OAuthTokenData) (store' : List StoredRow) (http : HttpOutcome),
        TokenService.get_credentials u p store = Except.ok (some cred) →
        cred.expires_at = some t → t ≤ now →
        TokenService.refresh_token_if_needed now http iv_a iv_r u p store
          = Except.ok (cred', store') →
        ∃ (resp : TokenResponse) (a : String) (ttl : Int),
          http = HttpOutcome.response resp ∧ resp.status_code = 200 ∧
          resp.access_token = some a ∧ resp.expires_in = some ttl ∧
          cred' = { cred with access_token := a, expires_at := some (now + ttl) }) ∧
    (∀ (ct : Int) (http : HttpOutcome) (u : String) (store : List goog.UserToken)
        (tok : goog.UserToken),
        store.find? (fun t => t.user_id == u) = some tok →
        ct + 300 ≥ tok.expiry_date → tok.refresh_token = "" →
        goog.refresh_token_if_needed ct http u store
          = (goog.GoogOutcome.noToken, store)) := by
  refine ⟨?_, ?_, ?_⟩
  · intro now t iv_a iv_r u p store cred resp hget hexp ht hrt hp hst
    rw [refresh_token_if_needed_of_get hget, hexp]
    have hne : ¬ t > now := by omega
    simp [hne, attempt_refresh_non200 hp hst]
  · intro now t iv_a iv_r u p store cred cred' store' http hget hexp ht hres
    rw [refresh_token_if_needed_of_get hget, hexp] at hres
    have hne : ¬ t > now := by omega
    simp only [hne, if_false, ite_false, gt_iff_lt, not_lt] at hres
    cases hp : PROVIDERS.contains p with
    | false => rw [attempt_refresh_unsupported hp] at hres; cases hres
    | true =>
      cases http with
      | netError msg =>
        rw [attempt_refresh_netError hp msg] at hres
        cases hres
      | response resp =>
        by_cases hst : resp.status_code = 200
        · cases ha : resp.access_token with
          | none =>
            rw [attempt_refresh_200_missing_access hp hst ha] at hres
            cases hres
          | some a =>
            cases he : resp.expires_in with
            | none =>
              rw [attempt_refresh_200_missing_expires hp hst ha he] at hres
              cases hres
            | some ttl =>
              rw [attempt_refresh_200 hp hst ha he] at hres
              simp only [Except.ok.injEq, Prod.mk.injEq] at hres
              exact ⟨resp, a, ttl, rfl, hst, ha, he, hres.1.symm⟩
        · rw [attempt_refresh_non200 hp hst] at hres
          cases hres
  · intro ct http u store tok hfind hmargin hrt
    unfold goog.refresh_token_if_needed
    rw [hfind]
    simp [hmargin, hrt]

set_option maxRecDepth 32768 in
/-- C3 witness: both amended behaviours evaluated concretely: the
`TokenService` path raises the generic refresh failure under a 400 reply for
an expired credential without a refresh token, and the goog variant returns
`None` for an in-margin token without a refresh token. -/
theorem c3_witness :
    (TokenService.refresh_token_if_needed 1000
        (HttpOutcome.response
          { status_code := 400, access_token := none, expires_in := none,
            refresh_token := none, text := "invalid_request" })
        (List.range 16) (List.range 16) "u5" "gcal"
        [{ id := "i5", user_id := "u5", provider := "gcal",
           access_token := encrypt_token (List.range 16) "a5",
           refresh_token := none,
           token_type := "Bearer", expires_at := some 900, scope := none,
           updated_at := none }]
      = Except.error (ServiceError.providerRaised
          "Failed to refresh token: invalid_request")) ∧
    (goog.refresh_token_if_needed 7000 (HttpOutcome.netError "down") "g5"
        [{ user_id := "g5", access_token := "ga5", refresh_token := "",
           expiry_date := 6000 }]
      = (goog.GoogOutcome.noToken,
         [{ user_id := "g5", access_token := "ga5", refresh_token := "",
            expiry_date := 6000 }])) :=
  ⟨c3_unrefreshable_behaviour.1 1000 900 (List.range 16) (List.range 16) "u5" "gcal"
      [{ id := "i5", user_id := "u5", provider := "gcal",
         access_token := encrypt_token (List.range 16) "a5",
         refresh_token := none,
         token_type := "Bearer", expires_at := some 900, scope := none,
         updated_at := none }]
      { id := "i5", access_token := "a5", user_id := "u5",
        refresh_token := none, token_type := "Bearer",
        expires_at := some 900, scope := none }
      { status_code := 400, access_token := none, expires_in := none,
        refresh_token := none, text := "invalid_request" }
      (by decide) (by decide) (by decide) (by decide) (by decide) (by decide),
    c3_unrefreshable_behaviour.2.2 7000 (HttpOutcome.netError "down") "g5"
      [{ user_id := "g5", access_token := "ga5", refresh_token := "",
         expiry_date := 6000 }]
      { user_id := "g5", access_token := "ga5", refresh_token := "",
        expiry_date := 6000 }
      (by decide) (by decide) (by decide)⟩

/-- C6: on a successful refresh (stored credential expired by the code's own
test `expires_at ≤ now`, provider replies 200 with `access_token` and
`expires_in` and no new `refresh_token`), `refresh_token_if_needed` returns
the credential with `access_token` from the reply, `expires_at = now +
expires_in`, the same `refresh_token` as before and every other field
unchanged (the `with`-update touches only those two fields), and the updated
credential is persisted re-encrypted: the resulting store holds a row keyed
by the credential's `id` and the provider carrying the two freshly encrypted
tokens. -/
theorem c6_successful_refresh_propagation :
    ∀ (now t : Int) (iv_a iv_r : List Nat) (u p : String) (store : List StoredRow)
      (cred : OAuthTokenData) (resp : TokenResponse) (a rt : String) (ttl : Int),
      TokenService.get_credentials u p store = Except.ok (some cred) →
      cred.expires_at = some t → t ≤ now → PROVIDERS.contains p = true →
      resp.status_code = 200 → resp.access_token = some a →
      resp.expires_in = some ttl → resp.refresh_token = none →
      cred.refresh_token = some rt → rt ≠ "" →
      TokenService.refresh_token_if_needed now (HttpOutcome.response resp)
          iv_a iv_r u p store
        = Except.ok ({ cred with access_token := a, expires_at := some (now + ttl) },
            TokenService.save_credentials iv_a iv_r now u p
              { cred with access_token := a, expires_at := some (now + ttl) } store) ∧
      ∃ r ∈ TokenService.save_credentials iv_a iv_r now u p
          { cred with access_token := a, expires_at := some (now + ttl) } store,
        r.id = cred.id ∧ r.provider = p ∧ r.user_id = u ∧
        r.access_token = encrypt_token iv_a a ∧
        r.refresh_token = some (encrypt_token iv_r rt) ∧
        r.expires_at = some (now + ttl) ∧ r.token_type = cred.token_type := by
  intro now t iv_a iv_r u p store cred resp a rt ttl hget hexp ht hp hst ha he hrr hcrt hrtne
  constructor
  · rw [refresh_token_if_needed_of_get hget, hexp]
    have hne : ¬ t > now := by omega
    simp [hne, attempt_refresh_200 hp hst ha he]
  · refine ⟨TokenService.saveRow iv_a iv_r now u p
        { cred with access_token := a, expires_at := some (now + ttl) },
      upsertBy_self_mem _ _ _, rfl, rfl, rfl, rfl, ?_, rfl, rfl⟩
    simp [TokenService.saveRow, hcrt, hrtne]

set_option maxRecDepth 32768 in
/-- C6 witness: the end-to-end scenario of the specification — user `u1`,
provider `gcal`, stored credential expired an hour ago with refresh token
`r1`, provider replies `200 {access_token: a2, expires_in: 3600}`. -/
theorem c6_witness :
    TokenService.refresh_token_if_needed 10000
        (HttpOutcome.response
          { status_code := 200, access_token := some "a2", expires_in := some 3600,
            refresh_token := none, text := "" })
        (List.range 16) (List.range 16) "u1" "gcal"
        [{ id := "i1", user_id := "u1", provider := "gcal",
           access_token := encrypt_token (List.range 16) "a1",
           refresh_token := some (encrypt_token (List.range 16) "r1"),
           token_type := "Bearer", expires_at := some 6400, scope := none,
           updated_at := none }]
      = Except.ok
          ({ id := "i1", access_token := "a2", user_id := "u1",
             refresh_token := some "r1", token_type := "Bearer",
             expires_at := some 13600, scope := none },
           TokenService.save_credentials (List.range 16) (List.range 16) 10000
             "u1" "gcal"
             { id := "i1", access_token := "a2", user_id := "u1",
               refresh_token := some "r1", token_type := "Bearer",
               expires_at := some 13600, scope := none }
             [{ id := "i1", user_id := "u1", provider := "gcal",
                access_token := encrypt_token (List.range 16) "a1",
                refresh_token := some (encrypt_token (List.range 16) "r1"),
                token_type := "Bearer", expires_at := some 6400, scope := none,
                updated_at := none }]) ∧
      ∃ r ∈ TokenService.save_credentials (List.range 16) (List.range 16) 10000
          "u1" "gcal"
          { id := "i1", access_token := "a2", user_id := "u1",
            refresh_token := some "r1", token_type := "Bearer",
            expires_at := some 13600, scope := none }
          [{ id := "i1", user_id := "u1", provider := "gcal",
             access_token := encrypt_token (List.range 16) "a1",
             refresh_token := some (encrypt_token (List.range 16) "r1"),
             token_type := "Bearer", expires_at := some 6400, scope := none,
             updated_at := none }],
        r.id = "i1" ∧ r.provider = "gcal" ∧ r.user_id = "u1" ∧
        r.access_token = encrypt_token (List.range 16) "a2" ∧
        r.refresh_token = some (encrypt_token (List.range 16) "r1") ∧
        r.expires_at = some 13600 ∧ r.token_type = "Bearer" :=
  c6_successful_refresh_propagation 10000 6400 (List.range 16) (List.range 16)
    "u1" "gcal"
    [{ id := "i1", user_id := "u1", provider := "gcal",
       access_token := encrypt_token (List.range 16) "a1",
       refresh_token := some (encrypt_token (List.range 16) "r1"),
       token_type := "Bearer", expires_at := some 6400, scope := none,
       updated_at := none }]
    { id := "i1", access_token := "a1", user_id := "u1",
      refresh_token := some "r1", token_type := "Bearer",
      expires_at := some 6400, scope := none }
    { status_code := 200, access_token := some "a2", expires_in := some 3600,
      refresh_token := none, text := "" }
    "a2" "r1" 3600 (by decide) (by decide) (by decide) (by decide) (by decide)
    (by decide) (by decide) (by decide) (by decide) (by decide)

set_option maxRecDepth 32768 in
/-- C7 counterexample: the store is NOT keyed by `(user_id, provider)`: two
`save_credentials` calls for the same user `u1` and provider `gcal` but
different credential `id`s (the upsert conflict target is
`["id", "provider"]`) leave TWO rows for that `(user_id, provider)` pair. -/
theorem c7_counterexample :
    ((TokenService.save_credentials (List.range 16) (List.range 16) 20 "u1" "gcal"
        { id := "i2", access_token := "b1", user_id := "u1",
          refresh_token := none, token_type := "Bearer",
          expires_at := none, scope := none }
        (TokenService.save_credentials (List.range 16) (List.range 16) 10 "u1" "gcal"
          { id := "i1", access_token := "a1", user_id := "u1",
            refresh_token := none, token_type := "Bearer",
            expires_at := none, scope := none }
          [])).filter
      (fun r => r.user_id == "u1" && r.provider == "gcal")).length = 2 := by decide

/-- C7 (amended): the upsert conflict key of `save_credentials` is
`(id, provider)`: calling it twice with the same credential `id` and
provider and different `access_token` values leaves exactly one row for that
`(id, provider)` key, carrying the latest (second) encrypted `access_token`
and `updated_at`; but, as the counterexample shows, two writes sharing only
`(user_id, provider)` with different `id`s produce two rows. -/
theorem c7_upsert_key_id_provider :
    ∀ (iv_a1 iv_r1 iv_a2 iv_r2 : List Nat) (now1 now2 : Int) (u p : String)
      (td1 td2 : OAuthTokenData) (store : List StoredRow),
      td2.id = td1.id →
      store.countP (fun r => r.id == td1.id && r.provider == p) = 0 →
      ∃ row,
        ((TokenService.save_credentials iv_a2 iv_r2 now2 u p td2
            (TokenService.save_credentials iv_a1 iv_r1 now1 u p td1 store)).filter
          (fun r => r.id == td1.id && r.provider == p)) = [row] ∧
        row.access_token = encrypt_token iv_a2 td2.access_token ∧
        row.updated_at = some now2 := by
  intro iv_a1 iv_r1 iv_a2 iv_r2 now1 now2 u p td1 td2 store htd h0
  have hany0 : store.any (fun r => r.id == td1.id && r.provider == p) = false :=
    any_eq_false_of_countP_zero h0
  have hrow1eq : TokenService.save_credentials iv_a1 iv_r1 now1 u p td1 store
      = store ++ [TokenService.saveRow iv_a1 iv_r1 now1 u p td1] :=
    save_credentials_of_no_conflict hany0
  have hpred2 : ∀ r : StoredRow,
      (r.id == (TokenService.saveRow iv_a2 iv_r2 now2 u p td2).id
        && r.provider == (TokenService.saveRow iv_a2 iv_r2 now2 u p td2).provider)
      = (r.id == td1.id && r.provider == p) := by
    intro r
    simp [TokenService.saveRow, htd]
  have hk1 : ((fun r : StoredRow => r.id == td1.id && r.provider == p)
      (TokenService.saveRow iv_a1 iv_r1 now1 u p td1)) = true := by
    simp [TokenService.saveRow]
  have hk2 : ((fun r : StoredRow => r.id == td1.id && r.provider == p)
      (TokenService.saveRow iv_a2 iv_r2 now2 u p td2)) = true := by
    simp [TokenService.saveRow, htd]
  have hany1 : (store ++ [TokenService.saveRow iv_a1 iv_r1 now1 u p td1]).any
      (fun r => r.id == td1.id && r.provider == p) = true := by
    rw [List.any_append]
    have h1 : (List.any [TokenService.saveRow iv_a1 iv_r1 now1 u p td1]
        (fun r => r.id == td1.id && r.provider == p)) = true := by
      simp only [List.any_cons, List.any_nil, Bool.or_false]
      exact hk1
    rw [h1, Bool.or_true]
  refine ⟨TokenService.saveRow iv_a2 iv_r2 now2 u p td2, ?_, rfl, rfl⟩
  rw [hrow1eq]
  simp only [TokenService.save_credentials, upsertBy, hpred2]
  rw [hany1, if_pos rfl]
  rw [filter_map_replace _ _ hk2]
  rw [List.countP_append, h0, Nat.zero_add]
  have hcount1 : List.countP (fun r => r.id == td1.id && r.provider == p)
      [TokenService.saveRow iv_a1 iv_r1 now1 u p td1] = 1 := by
    simp only [List.countP_cons, List.countP_nil, hk1, if_true]
  rw [hcount1]
  rfl

set_option maxRecDepth 32768 in
/-- C7 witness: the amended idempotent-upsert behaviour evaluated concretely:
two saves with the same `(id, provider)` and different tokens leave exactly
one matching row, carrying the latest encrypted token. -/
theorem c7_witness :
    ∃ row,
      ((TokenService.save_credentials (List.range 16) (List.range 16) 22 "u7" "gcal"
          { id := "k1", access_token := "a2", user_id := "u7",
            refresh_token := none, token_type := "Bearer",
            expires_at := none, scope := none }
          (TokenService.save_credentials (List.range 16) (List.range 16) 11 "u7" "gcal"
            { id := "k1", access_token := "a1", user_id := "u7",
              refresh_token := none, token_type := "Bearer",
              expires_at := none, scope := none }
            [])).filter (fun r => r.id == "k1" && r.provider == "gcal")) = [row] ∧
      row.access_token = encrypt_token (List.range 16) "a2" ∧
      row.updated_at = some 22 :=
  c7_upsert_key_id_provider (List.range 16) (List.range 16) (List.range 16)
    (List.range 16) 11 22 "u7" "gcal"
    { id := "k1", access_token := "a1", user_id := "u7",
      refresh_token := none, token_type := "Bearer",
      expires_at := none, scope := none }
    { id := "k1", access_token := "a2", user_id := "u7",
      refresh_token := none, token_type := "Bearer",
      expires_at := none, scope := none }
    [] (by decide) (by decide)

/-! ## Claims about encryption at rest and the maintenance sweep -/

set_option maxRecDepth 32768 in
/-- C1 counterexample: the `src/utils/db.py` write path stores PLAINTEXT:
`upsert_oauth_credentials` persists the given `access_token` and
`refresh_token` verbatim, and the stored value does not even have the
three-segment shape every Cipher output has (conjunct four of the amended
theorem), so it is not ciphertext produced by the Cipher. -/
theorem c1_counterexample :
    (upsert_oauth_credentials "u1" "gcal"
        { id := "i1", access_token := "a1", user_id := "u1",
          refresh_token := some "r1", token_type := "Bearer",
          expires_at := none, scope := none } []
      = [{ id := "i1", user_id := "u1", provider := "gcal",
           access_token := "a1", refresh_token := some "r1",
           token_type := "Bearer", expires_at := none, scope := none,
           updated_at := none }]) ∧
      (splitColon ("a1".data)).length ≠ 3 := by
  constructor
  · decide
  · decide

/-- C1 (amended): the `TokenService` paths do encrypt and decrypt — a
credential saved by `save_credentials` is read back by `get_credentials`
with both tokens decrypted to the original plaintext, and every Cipher
output has exactly three colon-separated segments — but the `src/utils/db.py`
paths do not: `upsert_oauth_credentials` persists the
`access_token`/`refresh_token` it was given verbatim (no encryption), and
`get_expiring_oauth_credentials` returns stored field values verbatim (no
decryption). -/
theorem c1_encryption_at_rest :
    (∀ (iv_a iv_r : List Nat) (now : Int) (u p : String) (td : OAuthTokenData)
        (store : List StoredRow) (rt : String),
        (∀ b ∈ iv_a, b < 256) → (∀ b ∈ iv_r, b < 256) →
        (∀ c ∈ td.access_token.data, c.toNat < 256) →
        td.refresh_token = some rt → rt ≠ "" →
        (∀ c ∈ rt.data, c.toNat < 256) →
        TokenService.findRow u p store = none →
        store.any (fun r => r.id == td.id && r.provider == p) = false →
        TokenService.get_credentials u p
            (TokenService.save_credentials iv_a iv_r now u p td store)
          = Except.ok (some
              { id := td.id, user_id := u, access_token := td.access_token,
                refresh_token := some rt, token_type := td.token_type,
                expires_at := td.expires_at, scope := td.scope })) ∧
    (∀ (u p : String) (td : OAuthTokenData) (store : List StoredRow),
        ∃ r ∈ upsert_oauth_credentials u p td store,
          r.id = td.id ∧ r.access_token = td.access_token ∧
          r.refresh_token = td.refresh_token) ∧
    (∀ (now : Int) (store : List StoredRow),
        ∀ cred ∈ get_expiring_oauth_credentials now store,
          ∃ r ∈ store, cred.access_token = r.access_token ∧
            cred.refresh_token = r.refresh_token) ∧
    (∀ (iv pt : List Nat), (∀ b ∈ iv, b < 256) → (∀ b ∈ pt, b < 256) →
        (splitColon (encrypt iv pt)).length = 3) := by
  refine ⟨?_, ?_, ?_, ?_⟩
  · intro iv_a iv_r now u p td store rt hiva hivr hat hrt hrtne hrtb hnou hnoid
    have hsave : TokenService.save_credentials iv_a iv_r now u p td store
        = store ++ [TokenService.saveRow iv_a iv_r now u p td] :=
      save_credentials_of_no_conflict hnoid
    have hp1 : ((TokenService.saveRow iv_a iv_r now u p td).user_id == u
        && ((TokenService.saveRow iv_a iv_r now u p td).provider == p)) = true := by
      simp [TokenService.saveRow]
    have hfind : TokenService.findRow u p
        (TokenService.save_credentials iv_a iv_r now u p td store)
        = some (TokenService.saveRow iv_a iv_r now u p td) := by
      rw [hsave]
      unfold TokenService.findRow at hnou ⊢
      rw [find?_append_of_none _ hnou]
      exact List.find?_cons_of_pos _ hp1
    have hrowrt : (TokenService.saveRow iv_a iv_r now u p td).refresh_token
        = some (encrypt_token iv_r rt) := by
      simp [TokenService.saveRow, hrt, hrtne]
    have hdecA : decrypt_token (TokenService.saveRow iv_a iv_r now u p td).access_token
        = Except.ok td.access_token :=
      decrypt_token_encrypt_token hiva hat
    exact get_credentials_of_found hfind hdecA hrowrt
      (encrypt_token_ne_empty iv_r rt) (decrypt_token_encrypt_token hivr hrtb)
  · intro u p td store
    exact ⟨_, upsertBy_self_mem _ _ store, rfl, rfl, rfl⟩
  · intro now store cred hc
    unfold get_expiring_oauth_credentials at hc
    obtain ⟨r, hr, rfl⟩ := List.mem_map.mp hc
    exact ⟨r, List.mem_of_mem_filter hr, rfl, rfl⟩
  · intro iv pt hiv hpt
    unfold encrypt
    rw [splitColon_append _ (colon_not_mem_hexlify hiv),
        splitColon_append _ (colon_not_mem_hexlify (authTagBytes_lt _ _)),
        splitColon_no_colon (colon_not_mem_hexlify (gcmXor_lt iv hpt 0))]
    rfl

set_option maxRecDepth 32768 in
/-- C1 witness: the save/read round trip evaluated concretely (note the row's
`user_id` is the `user_id` argument of `save_credentials`, not the one
inside the token data). -/
theorem c1_witness :
    TokenService.get_credentials "u8" "gmail"
        (TokenService.save_credentials (List.range 16) (List.range 16) 33 "u8" "gmail"
          { id := "i8", access_token := "tok8", user_id := "someone-else",
            refresh_token := some "r8", token_type := "Bearer",
            expires_at := some 5, scope := some "mail" } [])
      = Except.ok (some
          { id := "i8", user_id := "u8", access_token := "tok8",
            refresh_token := some "r8", token_type := "Bearer",
            expires_at := some 5, scope := some "mail" }) :=
  c1_encryption_at_rest.1 (List.range 16) (List.range 16) 33 "u8" "gmail"
    { id := "i8", access_token := "tok8", user_id := "someone-else",
      refresh_token := some "r8", token_type := "Bearer",
      expires_at := some 5, scope := some "mail" }
    [] "r8" (by decide) (by decide) (by decide) (by decide) (by decide)
    (by decide) (by decide) (by decide)

set_option maxRecDepth 32768 in
/-- C10: evaluation at the failing input.  The expiring-credentials query
returns the stored row as an `OAuthTokenData` (fields verbatim), and
`refresh_oauth_credential` applied to that credential raises
`AttributeError` instead of deleting the row: the `OAuthTokenData` model of
`src/utils/auth.py` has no `provider` field (pydantic drops the unknown row
key), so `oauth_data.provider` raises inside the `try` block, and the
`except` block's own `delete_oauth_credentials(oauth_data.user_id,
oauth_data.provider)` call raises the same way before any deletion — for
every network outcome, transient or terminal. -/
theorem c10_provider_attribute_error :
    (get_expiring_oauth_credentials 1000
        [{ id := "i1", user_id := "u1", provider := "gcal",
           access_token := encrypt_token (List.range 16) "a1",
           refresh_token := some (encrypt_token (List.range 16) "r1"),
           token_type := "Bearer", expires_at := some 500, scope := none,
           updated_at := none }]
      = [{ id := "i1", user_id := "u1",
           access_token := encrypt_token (List.range 16) "a1",
           refresh_token := some (encrypt_token (List.range 16) "r1"),
           token_type := "Bearer", expires_at := some 500, scope := none }]) ∧
      refresh_oauth_credential 1000 (HttpOutcome.netError "timeout")
          (List.range 16) (List.range 16)
          { id := "i1", user_id := "u1",
            access_token := encrypt_token (List.range 16) "a1",
            refresh_token := some (encrypt_token (List.range 16) "r1"),
            token_type := "Bearer", expires_at := some 500, scope := none }
          [{ id := "i1", user_id := "u1", provider := "gcal",
             access_token := encrypt_token (List.range 16) "a1",
             refresh_token := some (encrypt_token (List.range 16) "r1"),
             token_type := "Bearer", expires_at := some 500, scope := none,
             updated_at := none }]
        = Except.error "AttributeError: provider" := by
  constructor
  · decide
  · rfl
